import Mathlib

/-!
# Verification of the background update coordinator (`src/background/update.ts`)

This file gives a shallow embedding, in Lean 4, of the update coordination
state machine of the extension's background page: the `Update` class with its
`checkVersion`, `download`, `getTagDataEvent` operations and the `auto-update`
message handler, together with the two observable singletons `lastCheckData`
(a `ReleaseCheckData` BehaviorSubject) and `downloadStatus` (a
`DownloadStatus` BehaviorSubject) and the `loadLock` single-flight flag.

The JavaScript runtime is single-threaded and every operation only suspends at
its `await` points, so each operation is embedded as a pure function from the
mutable instance state (plus an environment record carrying the external
inputs: clock reading, local storage contents, the remote fetch result, the
XHR event sequence, the tag-database outcome) to the resulting state together
with an explicit outcome and the ordered traces of status values pushed into
`downloadStatus` and of badge calls.

JS-specific conventions of the embedding:
* a JS value that may be `null`/absent is an `Option`;
* truthiness of a string is `≠ ""`, of an `Option` is `isSome`;
* a promise that is left permanently unsettled (the executor returns without
  calling `resolve` or `reject`) is the explicit outcome `unsettled`;
* an exception thrown inside the `async` promise executor (for instance by the
  awaited `checkVersion`) rejects only the executor's own inner promise, which
  nobody observes; the outer promise stays unsettled — this is modelled
  faithfully;
* machine integers are `Nat` (all quantities involved — epoch milliseconds,
  byte counts, percentages — are non-negative and far below 2^53, where JS
  number arithmetic is exact); `Math.floor` of a non-negative real quotient of
  naturals is `Nat` division, and the exact-rational reading of the JS float
  expression is proved against it where a claim quotes the formula.
-/

/-- One entry of the GitHub release's `assets` array: the two fields the
program reads (`i.name` and `i.browser_download_url`). -/
structure GithubAsset where
  name : String
  browser_download_url : String
deriving Repr, DecidableEq

/-- The JSON document fetched from the release endpoint, restricted to the
fields the program reads: `target_commitish` (empty string models a missing or
falsy field), `html_url`, and the `assets` array (`none` models a missing
array; JS treats an empty array as truthy, so `some []` is distinct from
`none`). -/
structure RemoteInfo where
  target_commitish : String
  html_url : String
  assets : Option (List GithubAsset)
deriving Repr, DecidableEq

/-- The value held by the `lastCheckData` BehaviorSubject
(`ReleaseCheckData` in `src/interface`): fields exactly as constructed at
lines 21–28 and 101–108 of `update.ts`. -/
structure ReleaseCheckData where
  old : String
  oldLink : String
  new : String
  newLink : String
  timestamp : Nat
  githubRelease : Option RemoteInfo
deriving Repr, DecidableEq

/-- The value held by the `downloadStatus` BehaviorSubject (`DownloadStatus`
in `src/interface`): the field called `running` by the spec is named `run` in
the source and we keep the source's name. -/
structure DownloadStatus where
  run : Bool
  progress : Nat
  info : String
  complete : Bool
  error : Bool
deriving Repr, DecidableEq

/-- The constant `defaultStatus` from `update.ts` lines 12–18: the canonical
idle value. -/
def defaultStatus : DownloadStatus :=
  { run := false, progress := 0, info := "", complete := false, error := false }

/-- The mutable state of the `Update` instance: its two BehaviorSubjects'
current values and the `loadLock` boolean flag. -/
structure UpdateState where
  lastCheckData : ReleaseCheckData
  downloadStatus : DownloadStatus
  loadLock : Bool
deriving Repr, DecidableEq

/-- The initial state built by the class's field initializers
(lines 21–31). -/
def initialState : UpdateState :=
  { lastCheckData :=
      { old := "", oldLink := "", new := "", newLink := "",
        timestamp := 0, githubRelease := none }
    downloadStatus := defaultStatus
    loadLock := false }

/-- One call to `badgeLoading.set(text, color, priority?)`. -/
structure BadgeCall where
  text : String
  color : String
  priority : Option Nat
deriving Repr, DecidableEq

/-! ## Version checker (`checkVersion`, lines 83–110) -/

/-- Behaviour of `(await fetch(githubDownloadUrl)).json()` (together with the
preceding `browser.storage.local.get`, which shares the fate of the awaited
prefix): either the awaited chain throws, or it yields a JSON value (`none`
models JS `null`/undefined, i.e. a falsy `info`). -/
inductive FetchResult where
  | throws
  | json (info : Option RemoteInfo)
deriving Repr, DecidableEq

/-- True when the fetched document is falsy or lacks a truthy
`target_commitish`, i.e. exactly when line 98's
`!(info && info.target_commitish)` is true. -/
def FetchResult.lacksCommitish : FetchResult → Bool
  | .throws => false
  | .json none => true
  | .json (some i) => i.target_commitish = ""

/-- External inputs of one `checkVersion` run: the wall-clock reading of
`new Date().getTime()` (the two reads at lines 86 and 107 are milliseconds
apart; the embedding uses one value for both), the locally persisted `sha`
and `releaseLink`, and the fetch behaviour. -/
structure CheckEnv where
  now : Nat
  sha : String
  releaseLink : String
  fetch : FetchResult
deriving Repr, DecidableEq

/-- How a `checkVersion` call finishes: the awaited fetch threw (the
exception propagates to the caller), or the function returned a JS value —
`value none` models the explicit `return null` at line 99, and
`value (some d)` a returned `ReleaseCheckData`. -/
inductive CheckOutcome where
  | threw
  | value (v : Option ReleaseCheckData)
deriving Repr, DecidableEq

/-- Holds exactly when the call terminated by throwing. -/
def CheckOutcome.failed : CheckOutcome → Bool
  | .threw => true
  | .value _ => false

/-- Result of one `checkVersion` run: its outcome, the instance state after
the run, and whether the network fetch was performed at all. -/
structure CheckRun where
  outcome : CheckOutcome
  state : UpdateState
  didFetch : Bool
deriving Repr, DecidableEq

/-- The rate-limit test at lines 88–89:
`(time - lastCheckData.timestamp <= 1000 * 60) && lastCheckData.githubRelease`
(with `force` false). JS subtraction of an older timestamp from a newer one is
non-negative; when the clock reads below the stored timestamp the JS
difference is negative hence `≤ 60000`, matching `Nat` truncated subtraction
which gives `0 ≤ 60000`. -/
def rateLimitHit (force : Bool) (now : Nat) (d : ReleaseCheckData) : Bool :=
  !force && (now - d.timestamp ≤ 60000) && d.githubRelease.isSome

/-- The fresh `ReleaseCheckData` published at lines 101–108 after a
successful fetch: `old`/`oldLink` from the persisted storage values,
`new`/`newLink`/`githubRelease`/`timestamp` from the fresh response and
clock. -/
def freshData (env : CheckEnv) (i : RemoteInfo) : ReleaseCheckData :=
  { old := env.sha, oldLink := env.releaseLink,
    new := i.target_commitish, newLink := i.html_url,
    githubRelease := some i, timestamp := env.now }

/-- Shallow embedding of `checkVersion` (lines 83–110). -/
def checkVersion (force : Bool) (env : CheckEnv) (s : UpdateState) : CheckRun :=
  if rateLimitHit force env.now s.lastCheckData then
    { outcome := .value (some s.lastCheckData), state := s, didFetch := false }
  else
    match env.fetch with
    | .throws => { outcome := .threw, state := s, didFetch := true }
    | .json none => { outcome := .value none, state := s, didFetch := true }
    | .json (some i) =>
      if i.target_commitish = "" then
        { outcome := .value none, state := s, didFetch := true }
      else
        { outcome := .value (some (freshData env i)),
          state := { s with lastCheckData := freshData env i }, didFetch := true }

/-! ## Download coordinator (`download`, lines 112–166) -/

/-- One `xhr.onprogress` event, restricted to the fields the handler reads. -/
structure ProgressEvent where
  lengthComputable : Bool
  loaded : Nat
  total : Nat
deriving Repr, DecidableEq

/-- How the XHR transfer terminates: `onload` fires, or `onerror` fires. -/
inductive XhrTerminal where
  | load
  | onerror
deriving Repr, DecidableEq

/-- External inputs of one `download` run: the environment of the inner
non-forced `checkVersion` call, the XHR progress-event sequence (the browser
delivers those callbacks after the synchronous tail of `download` has run),
the transfer's terminal event, and an opaque identifier for the response
`ArrayBuffer`. -/
structure DownloadEnv where
  check : CheckEnv
  events : List ProgressEvent
  terminal : XhrTerminal
  response : Nat
deriving Repr, DecidableEq

/-- How the promise returned by `download()` ends up for its caller:
permanently unsettled (the executor returned without calling
`resolve`/`reject`, or threw before reaching them), rejected (with the
`message` of the rejection value — `none` for the `onerror` case, which
rejects with the raw event, whose `message` is absent), or resolved with the
release metadata and response buffer. -/
inductive DlOutcome where
  | unsettled
  | rejected (msg : Option String)
  | resolved (release : RemoteInfo) (db : Nat)
deriving Repr, DecidableEq

/-- Result of one `download` run: the promise outcome, the instance state
afterwards, the ordered list of values pushed into `downloadStatus`, the
ordered list of badge calls, and the URL handed to `xhr.open` when the
transfer was actually started (`none` when no HTTP transfer began). -/
structure DlRun where
  outcome : DlOutcome
  state : UpdateState
  statuses : List DownloadStatus
  badges : List BadgeCall
  transferUrl : Option String
deriving Repr, DecidableEq

/-- The fixed bundle filename compared against each asset's `name`
(line 127). -/
def bundleName : String := "db.html.json.gz"

/-- Lines 127–128: `info.assets.find(i => i.name === 'db.html.json.gz')`
followed by `asset && asset.browser_download_url || ''`. An absent asset and
an asset with an empty URL both yield the empty string. -/
def assetUrl (assets : List GithubAsset) : String :=
  match assets.find? (fun i => i.name = bundleName) with
  | some a => a.browser_download_url
  | none => ""

/-- Line 157: `Math.floor((event.loaded / event.total) * 100)`, read as exact
rational arithmetic on the non-negative integers involved; for naturals this
floor is truncated division `loaded * 100 / total`. -/
def progressPercent (loaded total : Nat) : Nat :=
  loaded * 100 / total

/-- The `onprogress` handler (lines 155–161) applied to a sequence of events:
starting from the current `downloadStatus` value, each length-computable
event merges `{info: percent + '%', progress: percent}` into the status and
issues the badge call `set(percent.toFixed(0), '#4A90E2', 1)`; other events
do nothing. Returns the final status value, the pushed statuses in order, and
the badge calls in order. -/
def runProgress (cur : DownloadStatus) :
    List ProgressEvent → DownloadStatus × List DownloadStatus × List BadgeCall
  | [] => (cur, [], [])
  | e :: es =>
    if e.lengthComputable then
      let p := progressPercent e.loaded e.total
      let st : DownloadStatus := { cur with info := toString p ++ "%", progress := p }
      let r := runProgress st es
      (r.1, st :: r.2.1, { text := toString p, color := "#4A90E2", priority := some 1 } :: r.2.2)
    else
      runProgress cur es

/-- The truthiness test at line 121,
`checkData && checkData.githubRelease && checkData.githubRelease.assets`:
yields the release record and its asset list when all three are truthy
(JS treats an empty asset array as truthy, hence `some (i, [])` is a valid
result), and `none` otherwise. -/
def releaseAssets : Option ReleaseCheckData → Option (RemoteInfo × List GithubAsset)
  | none => none
  | some d =>
    match d.githubRelease with
    | none => none
    | some i =>
      match i.assets with
      | none => none
      | some l => some (i, l)

/-- The status merge performed by the push at line 119,
`pushDownloadStatus({ run: true, info: '加载中' })`. -/
def loadingStatus (cur : DownloadStatus) : DownloadStatus :=
  { cur with run := true, info := "加载中" }

/-- The part of `download` after its one `await` (lines 121–165), as a
function of the finished inner `checkVersion` run. Faithfully modelled
behaviours: an exception from the awaited `checkVersion` rejects only the
async executor's own ignored inner promise, so the outer promise stays
unsettled and `loadLock` stays `true`; the two explicit `reject` branches
release the lock; `onload` resolves, then pushes the completion status and
badge and releases the lock in `finally`; `onerror` releases the lock, sets
the error badge and rejects with the raw event (whose `message` is absent).
The trace fields cover only this post-await part; `download` itself prepends
the pre-await pushes. -/
def downloadResumed (env : DownloadEnv) (cr : CheckRun) : DlRun :=
  match cr.outcome with
  | .threw =>
    { outcome := .unsettled, state := cr.state, statuses := [], badges := [],
      transferUrl := none }
  | .value vd =>
    match releaseAssets vd with
    | none =>
      { outcome := .rejected (some "无法获取版本信息"),
        state := { cr.state with loadLock := false },
        statuses := [], badges := [], transferUrl := none }
    | some (i, assets) =>
      let url := assetUrl assets
      if url = "" then
        { outcome := .rejected (some "无法获取下载地址"),
          state := { cr.state with loadLock := false },
          statuses := [], badges := [], transferUrl := none }
      else
        let st0 : DownloadStatus :=
          { cr.state.downloadStatus with info := "0%", progress := 0 }
        let pr := runProgress st0 env.events
        match env.terminal with
        | .load =>
          let stDone : DownloadStatus := { pr.1 with info := "下载完成", progress := 100 }
          { outcome := .resolved i env.response,
            state := { cr.state with loadLock := false, downloadStatus := stDone },
            statuses := st0 :: pr.2.1 ++ [stDone],
            badges := { text := "0", color := "#4A90E2", priority := some 1 }
              :: pr.2.2 ++ [{ text := "100", color := "#4A90E2", priority := some 1 }],
            transferUrl := some url }
        | .onerror =>
          { outcome := .rejected none,
            state := { cr.state with loadLock := false, downloadStatus := pr.1 },
            statuses := st0 :: pr.2.1,
            badges := { text := "0", color := "#4A90E2", priority := some 1 }
              :: pr.2.2 ++ [{ text := "ERR", color := "#C80000", priority := none }],
            transferUrl := some url }

/-- Shallow embedding of `download` (lines 112–166): a call finding
`loadLock` already set returns out of the executor without settling the
promise and without touching any state (lines 114–116); otherwise the lock is
taken, the loading badge and status are pushed (lines 117–119), the inner
non-forced `checkVersion` runs on the updated state, and execution continues
in `downloadResumed`. -/
def download (env : DownloadEnv) (s : UpdateState) : DlRun :=
  if s.loadLock then
    { outcome := .unsettled, state := s, statuses := [], badges := [],
      transferUrl := none }
  else
    let r := downloadResumed env
      (checkVersion false env.check
        { s with loadLock := true, downloadStatus := loadingStatus s.downloadStatus })
    { r with
        statuses := loadingStatus s.downloadStatus :: r.statuses,
        badges := { text := "", color := "#4A90E2", priority := some 2 } :: r.badges }

/-! ## Update orchestrator (`getTagDataEvent`, lines 47–70) and the
deferred grace-period reset -/

/-- The condition the deferred reset evaluates at line 62,
`if (this.downloadStatus.complete)`. Here `this.downloadStatus` is the
BehaviorSubject object itself, not its current value, so `.complete` reads
the subject's inherited `complete` *method* (`Subject.prototype.complete`), a
function object — which is truthy in JS regardless of the current status
value. The current status value (what `this.downloadStatus.value.complete`
would have read) is therefore ignored: the condition is constantly true. -/
def graceResetFires (_cur : DownloadStatus) : Bool := true

/-- Modelled from the spec: the guard the spec prescribes for the deferred
reset — "if the status is still `complete`", i.e. the `complete` field of the
current status value. Stated separately from `graceResetFires` (the condition
the source actually evaluates) so the two can be compared. -/
def specGraceResetFires (cur : DownloadStatus) : Bool := cur.complete

/-- The resumption of `getTagDataEvent` after `sleep(2500)` (lines 61–65),
as a function of the `downloadStatus` value current at resumption time (which
may belong to a newer operation that started during the grace period):
when the line-62 condition holds, the badge is cleared and the status reset
to `defaultStatus`; otherwise nothing happens. Returns the status after the
step and the badge calls issued. -/
def resumeAfterGrace (cur : DownloadStatus) : DownloadStatus × List BadgeCall :=
  if graceResetFires cur then
    (defaultStatus, [{ text := "", color := "#4A90E2", priority := none }])
  else
    (cur, [])

/-- The `info` text of the error status pushed by the catch block at line 68:
`(err && err.message) ? err.message : '更新失败'`. The argument is the
rejection value's `message` (`none` when the rejection value has no message
field, e.g. the raw `onerror` event; an empty message string is falsy). -/
def errorInfo : Option String → String
  | some m => if m = "" then "更新失败" else m
  | none => "更新失败"

/-- External inputs of one `getTagDataEvent` run beyond those of `download`:
the outcome of `tagDatabase.update` (`none` means it succeeded; `some m`
means it threw a value whose `message` is `m`), and the values of
`tagDatabase.sha` and `tagDatabase.releaseLink` read at lines 58–59 after the
update. -/
structure OrchEnv where
  dl : DownloadEnv
  dbUpdate : Option (Option String)
  dbSha : String
  dbReleaseLink : String
deriving Repr, DecidableEq

/-- Whether the orchestrator run terminates: `hung` when the awaited
`download()` promise never settles, so the function suspends forever and none
of its remaining code runs. -/
inductive OrchOutcome where
  | hung
  | done
deriving Repr, DecidableEq

/-- Result of one `getTagDataEvent` run: termination, final state, and the
ordered traces of pushed statuses and badge calls. -/
structure OrchRun where
  outcome : OrchOutcome
  state : UpdateState
  statuses : List DownloadStatus
  badges : List BadgeCall
deriving Repr, DecidableEq

/-- Shallow embedding of `getTagDataEvent` (lines 47–70), an isolated run
with no interleaved operation: reset the status, await `download`; on
rejection push the error status; on resolution run `tagDatabase.update`
(failure lands in the same catch block), then push the completion status,
record the database's identifiers into `lastCheckData`, sleep through the
grace period and run the deferred reset (in an isolated run the status at
resumption is still the pushed completion status). -/
def getTagDataEvent (env : OrchEnv) (s : UpdateState) : OrchRun :=
  let s0 : UpdateState := { s with downloadStatus := defaultStatus }
  let dr := download env.dl s0
  match dr.outcome with
  | .unsettled =>
    { outcome := .hung, state := dr.state,
      statuses := defaultStatus :: dr.statuses, badges := dr.badges }
  | .rejected m =>
    let st : DownloadStatus :=
      { dr.state.downloadStatus with run := false, error := true, info := errorInfo m }
    { outcome := .done, state := { dr.state with downloadStatus := st },
      statuses := defaultStatus :: dr.statuses ++ [st], badges := dr.badges }
  | .resolved _rel _db =>
    match env.dbUpdate with
    | some m =>
      let st : DownloadStatus :=
        { dr.state.downloadStatus with run := false, error := true, info := errorInfo m }
      { outcome := .done, state := { dr.state with downloadStatus := st },
        statuses := defaultStatus :: dr.statuses ++ [st], badges := dr.badges }
    | none =>
      let stC : DownloadStatus :=
        { dr.state.downloadStatus with
            run := true, info := "更新完成", progress := 100, complete := true }
      let s4 : UpdateState :=
        { dr.state with
            downloadStatus := stC,
            lastCheckData :=
              { dr.state.lastCheckData with
                  old := env.dbSha, oldLink := env.dbReleaseLink } }
      let rg := resumeAfterGrace stC
      { outcome := .done, state := { s4 with downloadStatus := rg.1 },
        statuses := defaultStatus :: dr.statuses ++ [stC]
          ++ (if rg.1 = stC then [] else [rg.1]),
        badges := dr.badges
          ++ [{ text := "OK", color := "#00C801", priority := none }] ++ rg.2 }

/-! ## Auto-update trigger (the `auto-update` listener, lines 36–43) -/

/-- How the `auto-update` handler's promise ends for the messaging caller:
`fault` when an exception escapes (either the forced `checkVersion` threw, or
it returned `null` and the field access `version.new` threw a TypeError);
`unsettled` when the awaited `getTagDataEvent` hangs; otherwise the returned
boolean. -/
inductive AutoOutcome where
  | fault
  | unsettled
  | returns (b : Bool)
deriving Repr, DecidableEq

/-- Result of one `auto-update` run: the outcome, the final state, and
whether the full update (`getTagDataEvent`, hence a download attempt) was
started. -/
structure AutoRun where
  outcome : AutoOutcome
  state : UpdateState
  ranUpdate : Bool
deriving Repr, DecidableEq

/-- Shallow embedding of the `auto-update` listener (lines 36–43):
`const version = await this.checkVersion(true); if (version.new &&
(version.new !== version.old)) { await this.getTagDataEvent(); return true; }
return false;`. When `checkVersion` returns `null`, evaluating `version.new`
throws a TypeError, so the handler faults instead of returning. -/
def autoUpdate (cenv : CheckEnv) (oenv : OrchEnv) (s : UpdateState) : AutoRun :=
  let cr := checkVersion true cenv s
  match cr.outcome with
  | .threw => { outcome := .fault, state := cr.state, ranUpdate := false }
  | .value none => { outcome := .fault, state := cr.state, ranUpdate := false }
  | .value (some v) =>
    if v.new ≠ "" ∧ v.new ≠ v.old then
      let orun := getTagDataEvent oenv cr.state
      { outcome := match orun.outcome with
          | .hung => .unsettled
          | .done => .returns true,
        state := orun.state, ranUpdate := true }
    else
      { outcome := .returns false, state := cr.state, ranUpdate := false }

/-! ## Concrete fixtures used by witnesses and counterexamples -/

/-- A release asset carrying the expected bundle name. -/
def sampleAsset : GithubAsset :=
  { name := "db.html.json.gz", browser_download_url := "https://x/db.gz" }

/-- A well-formed remote release document advertising version `v2`. -/
def sampleInfo : RemoteInfo :=
  { target_commitish := "v2", html_url := "https://r/v2", assets := some [sampleAsset] }

/-- A check environment with installed version `v1` and a successful fetch of
`sampleInfo`. -/
def sampleCheckEnv : CheckEnv :=
  { now := 100000, sha := "v1", releaseLink := "https://r/v1",
    fetch := .json (some sampleInfo) }

/-- A download environment: successful check, one length-computable progress
event at 50 of 200 bytes, successful transfer. -/
def sampleDlEnv : DownloadEnv :=
  { check := sampleCheckEnv,
    events := [{ lengthComputable := true, loaded := 50, total := 200 }],
    terminal := .load, response := 7 }

/-- An orchestrator environment around `sampleDlEnv` in which the database
update succeeds and afterwards reports `v2` as installed. -/
def sampleOrchEnv : OrchEnv :=
  { dl := sampleDlEnv, dbUpdate := none, dbSha := "v2", dbReleaseLink := "https://r/v2" }

/-- A download environment whose awaited version check throws. -/
def throwingDlEnv : DownloadEnv :=
  { sampleDlEnv with check := { sampleCheckEnv with fetch := .throws } }

/-- A check environment whose fetch yields a document with a missing
(falsy) `target_commitish`. -/
def emptyCommitishEnv : CheckEnv :=
  { now := 100000, sha := "v1", releaseLink := "https://r/v1",
    fetch := .json (some { target_commitish := "", html_url := "h", assets := none }) }

/-- A check environment identical to `sampleCheckEnv` except that the
installed version already equals the advertised `v2`. -/
def sameVersionCheckEnv : CheckEnv :=
  { now := 100000, sha := "v2", releaseLink := "https://r/v2",
    fetch := .json (some sampleInfo) }

/-- A state in which a download is already in flight. -/
def lockedState : UpdateState :=
  { initialState with loadLock := true }

/-- A state holding a cached successful check from clock time 70000. -/
def cachedState : UpdateState :=
  { initialState with
      lastCheckData :=
        { old := "v1", oldLink := "https://r/v1", new := "v2", newLink := "https://r/v2",
          timestamp := 70000, githubRelease := some sampleInfo } }

/-! ## Helper lemmas -/

theorem checkVersion_outcome_threw {force : Bool} {env : CheckEnv} {s : UpdateState}
    (h : (checkVersion force env s).outcome = CheckOutcome.threw) :
    env.fetch = FetchResult.throws := by
  unfold checkVersion at h
  split at h
  · simp at h
  · obtain ⟨n, sh, rl, f⟩ := env
    cases f with
    | throws => rfl
    | json info =>
      cases info with
      | none => simp at h
      | some i =>
        by_cases hc : i.target_commitish = "" <;> simp [hc] at h

theorem checkVersion_preserves (force : Bool) (env : CheckEnv) (s : UpdateState) :
    (checkVersion force env s).state.downloadStatus = s.downloadStatus
    ∧ (checkVersion force env s).state.loadLock = s.loadLock := by
  unfold checkVersion
  split
  · exact ⟨rfl, rfl⟩
  · obtain ⟨n, sh, rl, f⟩ := env
    cases f with
    | throws => exact ⟨rfl, rfl⟩
    | json info =>
      cases info with
      | none => exact ⟨rfl, rfl⟩
      | some i =>
        by_cases hc : i.target_commitish = "" <;> simp [hc]

theorem rateLimitHit_force (now : Nat) (d : ReleaseCheckData) :
    rateLimitHit true now d = false := by
  simp [rateLimitHit]

theorem checkVersion_lacksCommitish_eq (force : Bool) (env : CheckEnv) (s : UpdateState)
    (hnolimit : rateLimitHit force env.now s.lastCheckData = false)
    (hmiss : env.fetch.lacksCommitish = true) :
    checkVersion force env s
      = { outcome := .value none, state := s, didFetch := true } := by
  unfold checkVersion
  rw [hnolimit]
  simp only [Bool.false_eq_true, if_false]
  obtain ⟨n, sh, rl, f⟩ := env
  cases f with
  | throws => simp [FetchResult.lacksCommitish] at hmiss
  | json info =>
    cases info with
    | none => rfl
    | some i =>
      have hc : i.target_commitish = "" := by
        simpa [FetchResult.lacksCommitish] using hmiss
      simp [hc]

theorem checkVersion_fresh_eq (force : Bool) (env : CheckEnv) (s : UpdateState)
    (i : RemoteInfo)
    (hnolimit : rateLimitHit force env.now s.lastCheckData = false)
    (hfetch : env.fetch = FetchResult.json (some i))
    (hcomm : i.target_commitish ≠ "") :
    checkVersion force env s
      = { outcome := .value (some (freshData env i)),
          state := { s with lastCheckData := freshData env i }, didFetch := true } := by
  unfold checkVersion
  rw [hnolimit]
  simp only [Bool.false_eq_true, if_false]
  rw [hfetch]
  simp [hcomm]

theorem downloadResumed_settles (env : DownloadEnv) (cr : CheckRun)
    (h : cr.outcome ≠ CheckOutcome.threw) :
    (downloadResumed env cr).state.loadLock = false
    ∧ (downloadResumed env cr).outcome ≠ DlOutcome.unsettled := by
  obtain ⟨o, sdf, df⟩ := cr
  cases o with
  | threw => exact absurd rfl h
  | value vd =>
    unfold downloadResumed
    dsimp only
    cases hra : releaseAssets vd with
    | none => exact ⟨rfl, by simp⟩
    | some p =>
      obtain ⟨i, assets⟩ := p
      by_cases hu : assetUrl assets = ""
      · simp [hu]
      · cases env.terminal <;> simp [hu]

theorem progressPercent_le_100 {l t : Nat} (ht : 0 < t) (h : l ≤ t) :
    progressPercent l t ≤ 100 := by
  unfold progressPercent
  have h1 : l * 100 ≤ 100 * t := by
    rw [Nat.mul_comm]
    exact Nat.mul_le_mul_left 100 h
  calc l * 100 / t ≤ 100 * t / t := Nat.div_le_div_right h1
  _ = 100 := Nat.mul_div_cancel 100 ht

theorem progressPercent_mono {l₁ l₂ t : Nat} (h : l₁ ≤ l₂) :
    progressPercent l₁ t ≤ progressPercent l₂ t :=
  Nat.div_le_div_right (Nat.mul_le_mul_right 100 h)

theorem progressPercent_eq_floor {l t : Nat} :
    Nat.floor ((l : ℚ) / (t : ℚ) * 100) = progressPercent l t := by
  have h : (l : ℚ) / (t : ℚ) * 100 = ((l * 100 : ℕ) : ℚ) / ((t : ℕ) : ℚ) := by
    push_cast
    ring
  rw [h, Nat.floor_div_eq_div]
  rfl

theorem runProgress_maps (cur : DownloadStatus) (es : List ProgressEvent) :
    ((runProgress cur es).2.1.map DownloadStatus.progress
      = (es.filter fun e => e.lengthComputable).map
          (fun e => progressPercent e.loaded e.total))
    ∧ ((runProgress cur es).2.1.map DownloadStatus.info
      = (es.filter fun e => e.lengthComputable).map
          (fun e => toString (progressPercent e.loaded e.total) ++ "%"))
    ∧ ((runProgress cur es).2.2.map BadgeCall.text
      = (es.filter fun e => e.lengthComputable).map
          (fun e => toString (progressPercent e.loaded e.total))) := by
  induction es generalizing cur with
  | nil => simp [runProgress]
  | cons e es ih =>
    by_cases hl : e.lengthComputable
    · simp [runProgress, hl, ih]
    · simp [runProgress, hl, ih cur]

theorem runProgress_flags (cur : DownloadStatus) (es : List ProgressEvent) :
    ((runProgress cur es).1.run = cur.run
      ∧ (runProgress cur es).1.complete = cur.complete
      ∧ (runProgress cur es).1.error = cur.error)
    ∧ ∀ st ∈ (runProgress cur es).2.1,
        st.run = cur.run ∧ st.complete = cur.complete ∧ st.error = cur.error := by
  induction es generalizing cur with
  | nil => simp [runProgress]
  | cons e es ih =>
    by_cases hl : e.lengthComputable
    · simp only [runProgress, hl, if_true]
      refine ⟨(ih _).1, ?_⟩
      intro st hst
      rcases List.mem_cons.1 hst with rfl | hst
      · exact ⟨rfl, rfl, rfl⟩
      · exact (ih { cur with
          info := toString (progressPercent e.loaded e.total) ++ "%",
          progress := progressPercent e.loaded e.total }).2 st hst
    · have hstep : runProgress cur (e :: es) = runProgress cur es := by
        simp [runProgress, hl]
      rw [hstep]
      exact ih cur

theorem runProgress_flags_false (cur : DownloadStatus) (es : List ProgressEvent)
    (hc : cur.complete = false) (he : cur.error = false) :
    (∀ st ∈ (runProgress cur es).2.1, st.complete = false ∧ st.error = false)
    ∧ (runProgress cur es).1.complete = false
    ∧ (runProgress cur es).1.error = false := by
  have h := runProgress_flags cur es
  exact ⟨fun st hst => ⟨((h.2 st hst).2.1).trans hc, ((h.2 st hst).2.2).trans he⟩,
    h.1.2.1.trans hc, h.1.2.2.trans he⟩

theorem downloadResumed_flags (env : DownloadEnv) (cr : CheckRun)
    (hc : cr.state.downloadStatus.complete = false)
    (he : cr.state.downloadStatus.error = false) :
    (∀ st ∈ (downloadResumed env cr).statuses, st.complete = false ∧ st.error = false)
    ∧ (downloadResumed env cr).state.downloadStatus.complete = false
    ∧ (downloadResumed env cr).state.downloadStatus.error = false := by
  obtain ⟨o, sdf, df⟩ := cr
  dsimp only at hc he
  cases o with
  | threw =>
    refine ⟨?_, hc, he⟩
    intro st hst
    simp [downloadResumed] at hst
  | value vd =>
    unfold downloadResumed
    dsimp only
    cases hra : releaseAssets vd with
    | none =>
      refine ⟨?_, hc, he⟩
      intro st hst
      simp at hst
    | some p =>
      obtain ⟨i, assets⟩ := p
      dsimp only
      by_cases hu : assetUrl assets = ""
      · rw [if_pos hu]
        refine ⟨?_, hc, he⟩
        intro st hst
        simp at hst
      · have hrp := runProgress_flags_false
          { sdf.downloadStatus with info := "0%", progress := 0 } env.events hc he
        cases env.terminal with
        | load =>
          rw [if_neg hu]
          refine ⟨?_, hrp.2.1, hrp.2.2⟩
          intro st hst
          rcases List.mem_cons.1 hst with rfl | hst2
          · exact ⟨hc, he⟩
          · rcases List.mem_append.1 hst2 with hst3 | hst4
            · exact hrp.1 st hst3
            · have hd : st = { (runProgress { sdf.downloadStatus with
                  info := "0%", progress := 0 } env.events).1 with
                  info := "下载完成", progress := 100 } := by
                simpa using hst4
              rw [hd]
              exact ⟨hrp.2.1, hrp.2.2⟩
        | onerror =>
          rw [if_neg hu]
          refine ⟨?_, hrp.2.1, hrp.2.2⟩
          intro st hst
          rcases List.mem_cons.1 hst with rfl | hst2
          · exact ⟨hc, he⟩
          · exact hrp.1 st hst2

theorem download_flags (env : DownloadEnv) (s : UpdateState)
    (hc : s.downloadStatus.complete = false) (he : s.downloadStatus.error = false) :
    (∀ st ∈ (download env s).statuses, st.complete = false ∧ st.error = false)
    ∧ (download env s).state.downloadStatus.complete = false
    ∧ (download env s).state.downloadStatus.error = false := by
  unfold download
  by_cases hl : s.loadLock
  · rw [if_pos hl]
    refine ⟨?_, hc, he⟩
    intro st hst
    simp at hst
  · rw [if_neg hl]
    have hpre := checkVersion_preserves false env.check
      { s with loadLock := true, downloadStatus := loadingStatus s.downloadStatus }
    have hsc : (checkVersion false env.check
        { s with loadLock := true, downloadStatus := loadingStatus s.downloadStatus
        }).state.downloadStatus.complete = false := by
      rw [hpre.1]
      exact hc
    have hse : (checkVersion false env.check
        { s with loadLock := true, downloadStatus := loadingStatus s.downloadStatus
        }).state.downloadStatus.error = false := by
      rw [hpre.1]
      exact he
    have hflags := downloadResumed_flags env _ hsc hse
    refine ⟨?_, hflags.2.1, hflags.2.2⟩
    intro st hst
    rcases List.mem_cons.1 hst with rfl | hst2
    · exact ⟨hc, he⟩
    · exact hflags.1 st hst2

/-! ## Claim theorems -/

/-- Claim C1: a `download()` call made while another download is already in
progress must not silently stall — it must settle with the in-flight result
or fail immediately with `DownloadAlreadyInProgress`. This theorem evaluates
the code at such a call: the executor returns at line 115 without calling
`resolve` or `reject`, so the caller's promise is left permanently unsettled
(nothing is pushed and no state changes either) — the code contradicts the
claim, which matches the spec's own design note calling this path a
defect. -/
theorem download_while_locked_never_settles (env : DownloadEnv) (s : UpdateState)
    (h : s.loadLock = true) :
    download env s
      = { outcome := .unsettled, state := s, statuses := [], badges := [],
          transferUrl := none } := by
  unfold download
  rw [if_pos h]

theorem download_while_locked_never_settles_witness :
    lockedState.loadLock = true
    ∧ (download sampleDlEnv lockedState).outcome = DlOutcome.unsettled := by
  refine ⟨rfl, ?_⟩
  rw [download_while_locked_never_settles sampleDlEnv lockedState rfl]

/-- Claim C2 counterexample: a concrete guarded execution in which the
awaited version check throws. The operation exits (the executor's async
function dies on the exception) with the promise never settled and the guard
still held — so the guard is not released on this exit path, refuting the
claim that every exit path, including an exception from the awaited version
check, releases it. -/
theorem download_check_throw_leaks_guard :
    (download throwingDlEnv initialState).state.loadLock = true
    ∧ (download throwingDlEnv initialState).outcome = DlOutcome.unsettled :=
  ⟨rfl, rfl⟩

/-- Claim C2 (amended): the guard is released on every settling exit path —
successful completion and each explicit failure branch
(`VersionInfoUnavailable`, `AssetUrlMissing`, `NetworkError`) — i.e. whenever
the awaited version check does not throw; an exception thrown by the awaited
version check instead leaves the promise unsettled with the guard held. -/
theorem download_guard_released_when_settled (env : DownloadEnv) (s : UpdateState)
    (hlock : s.loadLock = false) (hfetch : env.check.fetch ≠ FetchResult.throws) :
    (download env s).state.loadLock = false
    ∧ (download env s).outcome ≠ DlOutcome.unsettled := by
  unfold download
  rw [if_neg (by simp [hlock])]
  have h1 : (checkVersion false env.check
      { s with loadLock := true, downloadStatus := loadingStatus s.downloadStatus
      }).outcome ≠ CheckOutcome.threw :=
    fun hcth => hfetch (checkVersion_outcome_threw hcth)
  exact downloadResumed_settles env _ h1

theorem download_guard_released_when_settled_witness :
    initialState.loadLock = false
    ∧ sampleDlEnv.check.fetch ≠ FetchResult.throws
    ∧ (download sampleDlEnv initialState).state.loadLock = false := by
  refine ⟨rfl, by decide, ?_⟩
  exact (download_guard_released_when_settled sampleDlEnv initialState rfl (by decide)).1

/-- Claim C3 counterexample: the status published at line 55 after a
successful update is reachable and has `run = true` and `complete = true`
simultaneously, refuting "both are false whenever running is true". -/
theorem complete_status_runs :
    ({ run := true, progress := 100, info := "更新完成", complete := true,
       error := false } : DownloadStatus)
      ∈ (getTagDataEvent sampleOrchEnv initialState).statuses
    ∧ ({ run := true, progress := 100, info := "更新完成", complete := true,
         error := false } : DownloadStatus).run = true
    ∧ ({ run := true, progress := 100, info := "更新完成", complete := true,
         error := false } : DownloadStatus).complete = true := by
  refine ⟨by decide, rfl, rfl⟩

/-- Claim C3 (amended): in every status value published during an
orchestrated operation, `complete` and `error` are never both true and
`error = true` implies `run = false` (so at most one terminal flag is set,
and the error status is never marked running) — but the completion status
carries `run = true` together with `complete = true`; and every operation
begins by resetting the status to the canonical idle value
(`defaultStatus`). -/
theorem getTagDataEvent_status_invariant (env : OrchEnv) (s : UpdateState) :
    (getTagDataEvent env s).statuses.head? = some defaultStatus
    ∧ ∀ st ∈ (getTagDataEvent env s).statuses,
        ¬(st.complete = true ∧ st.error = true)
        ∧ (st.error = true → st.run = false) := by
  have hfl := download_flags env.dl { s with downloadStatus := defaultStatus } rfl rfl
  have hP : ∀ st : DownloadStatus, st.complete = false → st.error = false →
      ¬(st.complete = true ∧ st.error = true) ∧ (st.error = true → st.run = false) := by
    intro st h1 h2
    refine ⟨?_, ?_⟩
    · rintro ⟨hc2, -⟩
      rw [h1] at hc2
      exact Bool.false_ne_true hc2
    · intro herr
      rw [h2] at herr
      exact absurd herr Bool.false_ne_true
  unfold getTagDataEvent
  dsimp only
  cases ho : (download env.dl { s with downloadStatus := defaultStatus }).outcome with
  | unsettled =>
    refine ⟨rfl, ?_⟩
    intro st hst
    rcases List.mem_cons.1 hst with rfl | hst2
    · exact hP _ rfl rfl
    · exact hP st (hfl.1 st hst2).1 (hfl.1 st hst2).2
  | rejected m =>
    refine ⟨rfl, ?_⟩
    intro st hst
    rcases List.mem_cons.1 hst with rfl | hst2
    · exact hP _ rfl rfl
    · rcases List.mem_append.1 hst2 with hst3 | hst4
      · exact hP st (hfl.1 st hst3).1 (hfl.1 st hst3).2
      · have hst5 : st = { (download env.dl { s with downloadStatus := defaultStatus
            }).state.downloadStatus with
            run := false, error := true, info := errorInfo m } := by simpa using hst4
        rw [hst5]
        refine ⟨?_, fun _ => rfl⟩
        rintro ⟨hc2, -⟩
        exact Bool.false_ne_true ((hfl.2.1).symm.trans hc2)
  | resolved rel db =>
    cases hdb : env.dbUpdate with
    | some m =>
      refine ⟨rfl, ?_⟩
      intro st hst
      rcases List.mem_cons.1 hst with rfl | hst2
      · exact hP _ rfl rfl
      · rcases List.mem_append.1 hst2 with hst3 | hst4
        · exact hP st (hfl.1 st hst3).1 (hfl.1 st hst3).2
        · have hst5 : st = { (download env.dl { s with downloadStatus := defaultStatus
              }).state.downloadStatus with
              run := false, error := true, info := errorInfo m } := by simpa using hst4
          rw [hst5]
          refine ⟨?_, fun _ => rfl⟩
          rintro ⟨hc2, -⟩
          exact Bool.false_ne_true ((hfl.2.1).symm.trans hc2)
    | none =>
      refine ⟨rfl, ?_⟩
      intro st hst
      rcases List.mem_cons.1 hst with rfl | hst2
      · exact hP _ rfl rfl
      · rcases List.mem_append.1 hst2 with hst3 | hst4
        · rcases List.mem_append.1 hst3 with hst5 | hst6
          · exact hP st (hfl.1 st hst5).1 (hfl.1 st hst5).2
          · have hst7 : st = { (download env.dl { s with downloadStatus := defaultStatus
                }).state.downloadStatus with
                run := true, info := "更新完成", progress := 100, complete := true } := by
              simpa using hst6
            rw [hst7]
            refine ⟨?_, ?_⟩
            · rintro ⟨-, he2⟩
              exact Bool.false_ne_true ((hfl.2.2).symm.trans he2)
            · intro herr
              exact absurd ((hfl.2.2).symm.trans herr) Bool.false_ne_true
        · split at hst4
          · simp at hst4
          · have hst8 : st = defaultStatus := by simpa using hst4
            rw [hst8]
            exact hP _ rfl rfl

theorem getTagDataEvent_status_invariant_witness :
    ¬(defaultStatus.complete = true ∧ defaultStatus.error = true) := by
  have h := getTagDataEvent_status_invariant sampleOrchEnv initialState
  exact (h.2 defaultStatus (by decide)).1

/-- Claim C4: a non-forced `checkVersion` call made less than 60,000 ms after
the last successful check, with a non-empty cached remote release record,
returns the cached `ReleaseCheckData` unchanged, leaves the state untouched
and performs no network fetch (lines 84–92). -/
theorem checkVersion_rate_limited (env : CheckEnv) (s : UpdateState)
    (hfresh : env.now - s.lastCheckData.timestamp < 60000)
    (hrel : s.lastCheckData.githubRelease.isSome = true) :
    checkVersion false env s
      = { outcome := .value (some s.lastCheckData), state := s, didFetch := false } := by
  have h : rateLimitHit false env.now s.lastCheckData = true := by
    simp [rateLimitHit, hrel, Nat.le_of_lt hfresh]
  unfold checkVersion
  rw [if_pos h]

theorem checkVersion_rate_limited_witness :
    sampleCheckEnv.now - cachedState.lastCheckData.timestamp < 60000
    ∧ cachedState.lastCheckData.githubRelease.isSome = true
    ∧ (checkVersion false sampleCheckEnv cachedState).didFetch = false := by
  refine ⟨by decide, by decide, ?_⟩
  rw [checkVersion_rate_limited sampleCheckEnv cachedState (by decide) (by decide)]

/-- Claim C5 counterexample: a concrete fetch whose document lacks
`target_commitish`. The call does leave the singleton unchanged, but it does
not fail: it returns normally with the JS `null` of line 99 (outcome
`value none`, `failed = false`), refuting "fails with
`VersionInfoUnavailable`". -/
theorem checkVersion_missing_commitish_returns_null :
    checkVersion true emptyCommitishEnv initialState
      = { outcome := .value none, state := initialState, didFetch := true }
    ∧ (checkVersion true emptyCommitishEnv initialState).outcome.failed = false :=
  ⟨rfl, rfl⟩

/-- Claim C5 (amended): when the fetched remote metadata lacks
`target_commitish` (and the rate limit did not short-circuit the call),
`checkVersion` returns `null` — no failure is thrown and no
`ReleaseCheckData` is produced — and the `lastCheckData` singleton (indeed
the whole state) is left completely unchanged. -/
theorem checkVersion_missing_commitish_no_mutation (force : Bool) (env : CheckEnv)
    (s : UpdateState)
    (hnolimit : rateLimitHit force env.now s.lastCheckData = false)
    (hmiss : env.fetch.lacksCommitish = true) :
    checkVersion force env s
      = { outcome := .value none, state := s, didFetch := true } :=
  checkVersion_lacksCommitish_eq force env s hnolimit hmiss

theorem checkVersion_missing_commitish_no_mutation_witness :
    rateLimitHit true emptyCommitishEnv.now initialState.lastCheckData = false
    ∧ emptyCommitishEnv.fetch.lacksCommitish = true
    ∧ (checkVersion true emptyCommitishEnv initialState).state = initialState := by
  refine ⟨by decide, by decide, ?_⟩
  rw [checkVersion_missing_commitish_no_mutation true emptyCommitishEnv initialState
    (by decide) (by decide)]

/-- Claim C6: after the 2,500 ms grace period the status should be reset to
idle and the badge cleared if and only if the status is still the completion
one, leaving a newer operation's state untouched. The code instead tests
`this.downloadStatus.complete` — the BehaviorSubject's `complete` method, a
function object that is always truthy — not the current value's `complete`
field, so this theorem evaluates the resumption step on the loading status of
a newer operation (for which the spec's guard is false, the status being not
the complete one) and shows the reset still fires, clobbering that status
back to idle. -/
theorem graceReset_clobbers_newer_operation :
    specGraceResetFires (loadingStatus defaultStatus) = false
    ∧ graceResetFires (loadingStatus defaultStatus) = true
    ∧ (resumeAfterGrace (loadingStatus defaultStatus)).1 = defaultStatus
    ∧ loadingStatus defaultStatus ≠ defaultStatus := by
  refine ⟨rfl, rfl, rfl, ?_⟩
  intro h
  exact Bool.false_ne_true ((congrArg DownloadStatus.run h).symm)

/-- Claim C7: the `auto-update` handler performs a forced version check and,
given the check produced a result `v` (and the orchestrated update, when
triggered, terminates), it runs the full update and returns `true` exactly
when `v.new` is non-empty and differs from `v.old`; otherwise it returns
`false` without running any update and with no state beyond the check's own
singleton update (lines 36–43). -/
theorem autoUpdate_runs_iff_new_version (cenv : CheckEnv) (oenv : OrchEnv)
    (s : UpdateState) (v : ReleaseCheckData)
    (hv : (checkVersion true cenv s).outcome = CheckOutcome.value (some v))
    (hsettle : (getTagDataEvent oenv (checkVersion true cenv s).state).outcome
      = OrchOutcome.done) :
    ((autoUpdate cenv oenv s).outcome = AutoOutcome.returns true
      ↔ (v.new ≠ "" ∧ v.new ≠ v.old))
    ∧ ((autoUpdate cenv oenv s).ranUpdate = true ↔ (v.new ≠ "" ∧ v.new ≠ v.old))
    ∧ ((v.new = "" ∨ v.new = v.old) →
        autoUpdate cenv oenv s
          = { outcome := AutoOutcome.returns false,
              state := (checkVersion true cenv s).state, ranUpdate := false }) := by
  unfold autoUpdate
  dsimp only
  rw [hv]
  dsimp only
  by_cases hcond : v.new ≠ "" ∧ v.new ≠ v.old
  · rw [if_pos hcond]
    dsimp only
    rw [hsettle]
    refine ⟨by simp [hcond], by simp [hcond], ?_⟩
    intro hneg
    rcases hneg with h | h
    · exact absurd h hcond.1
    · exact absurd h hcond.2
  · rw [if_neg hcond]
    refine ⟨by simp [hcond], by simp [hcond], fun _ => rfl⟩

theorem autoUpdate_runs_iff_new_version_witness :
    (autoUpdate sameVersionCheckEnv sampleOrchEnv initialState).outcome
      = AutoOutcome.returns false := by
  have h := autoUpdate_runs_iff_new_version sameVersionCheckEnv sampleOrchEnv initialState
    (freshData sameVersionCheckEnv sampleInfo) (by decide) (by decide)
  rw [h.2.2 (Or.inr (by decide))]

/-- Claim C8: `download` resolves the binary asset as the entry of the
release's asset list whose name exactly equals `db.html.json.gz` (the
`assetUrl` selection, lines 127–128); when no such entry exists or its
download URL is empty, the call rejects with `AssetUrlMissing`
(`'无法获取下载地址'`), the single-flight guard is released so a following
call may proceed, and no HTTP transfer is started; otherwise the transfer is
opened on exactly the selected URL. -/
theorem download_asset_missing (env : DownloadEnv) (s : UpdateState)
    (i : RemoteInfo) (assets : List GithubAsset)
    (hlock : s.loadLock = false)
    (hnolimit : rateLimitHit false env.check.now s.lastCheckData = false)
    (hfetch : env.check.fetch = FetchResult.json (some i))
    (hcomm : i.target_commitish ≠ "")
    (hassets : i.assets = some assets) :
    (assetUrl assets = "" →
      (download env s).outcome = DlOutcome.rejected (some "无法获取下载地址")
      ∧ (download env s).state.loadLock = false
      ∧ (download env s).transferUrl = none)
    ∧ (assetUrl assets ≠ "" → (download env s).transferUrl = some (assetUrl assets)) := by
  unfold download
  rw [if_neg (by simp [hlock])]
  have hcv := checkVersion_fresh_eq false env.check
    { s with loadLock := true, downloadStatus := loadingStatus s.downloadStatus }
    i hnolimit hfetch hcomm
  rw [hcv]
  unfold downloadResumed
  dsimp only
  rw [show releaseAssets (some (freshData env.check i)) = some (i, assets) from by
    simp [releaseAssets, freshData, hassets]]
  dsimp only
  by_cases hu : assetUrl assets = ""
  · rw [if_pos hu]
    exact ⟨fun _ => ⟨rfl, rfl, rfl⟩, fun hne => absurd hu hne⟩
  · rw [if_neg hu]
    cases env.terminal <;> exact ⟨fun heq => absurd heq hu, fun _ => rfl⟩

theorem download_asset_missing_witness :
    (download { check := { now := 100000, sha := "v1", releaseLink := "r", fetch := .json (some { target_commitish := "v2", html_url := "h", assets := some [] }) }, events := [], terminal := .load, response := 0 } initialState).outcome
      = DlOutcome.rejected (some "无法获取下载地址") := by
  have h := download_asset_missing
    { check := { now := 100000, sha := "v1", releaseLink := "r", fetch := .json (some { target_commitish := "v2", html_url := "h", assets := some [] }) }, events := [], terminal := .load, response := 0 }
    initialState
    { target_commitish := "v2", html_url := "h", assets := some [] } []
    rfl (by decide) rfl (by decide) rfl
  exact (h.1 rfl).1

/-- Claim C9: for every length-computable progress event the `onprogress`
handler (lines 155–161) publishes `progress = floor(loaded / total * 100)`
and `info` equal to that percentage followed by a percent sign, and forwards
the same percentage (as its decimal string) to the badge; and under the XHR
guarantees that all events of one transfer share one positive total, are
bounded by it and have non-decreasing `loaded`, the published progress values
lie in `[0, 100]` and are monotonically non-decreasing. -/
theorem download_progress_reporting (cur : DownloadStatus) (es : List ProgressEvent)
    (t : Nat) (ht : 0 < t)
    (htotal : ∀ e ∈ es, e.total = t)
    (hle : ∀ e ∈ es, e.loaded ≤ e.total)
    (hmono : es.Pairwise (fun a b => a.loaded ≤ b.loaded)) :
    ((runProgress cur es).2.1.map DownloadStatus.progress
      = (es.filter fun e => e.lengthComputable).map
          (fun e => progressPercent e.loaded e.total))
    ∧ ((runProgress cur es).2.1.map DownloadStatus.info
      = (es.filter fun e => e.lengthComputable).map
          (fun e => toString (progressPercent e.loaded e.total) ++ "%"))
    ∧ ((runProgress cur es).2.2.map BadgeCall.text
      = (es.filter fun e => e.lengthComputable).map
          (fun e => toString (progressPercent e.loaded e.total)))
    ∧ (∀ e ∈ es, Nat.floor ((e.loaded : ℚ) / (e.total : ℚ) * 100)
        = progressPercent e.loaded e.total)
    ∧ (∀ st ∈ (runProgress cur es).2.1, st.progress ≤ 100)
    ∧ List.Chain' (· ≤ ·) ((runProgress cur es).2.1.map DownloadStatus.progress) := by
  obtain ⟨hm1, hm2, hm3⟩ := runProgress_maps cur es
  refine ⟨hm1, hm2, hm3, ?_, ?_, ?_⟩
  · intro e _
    exact progressPercent_eq_floor
  · intro st hst
    have hmem : st.progress ∈ (runProgress cur es).2.1.map DownloadStatus.progress :=
      List.mem_map_of_mem DownloadStatus.progress hst
    rw [hm1] at hmem
    rcases List.mem_map.1 hmem with ⟨e, hef, heq⟩
    have he : e ∈ es := List.mem_of_mem_filter hef
    rw [← heq]
    exact progressPercent_le_100 (by rw [htotal e he]; exact ht) (hle e he)
  · rw [hm1]
    have hcg : (es.filter fun e => e.lengthComputable).map
        (fun e => progressPercent e.loaded e.total)
        = (es.filter fun e => e.lengthComputable).map
            (fun e => progressPercent e.loaded t) := by
      refine List.map_congr_left ?_
      intro e hef
      rw [htotal e (List.mem_of_mem_filter hef)]
    rw [hcg]
    have hp : (es.filter fun e => e.lengthComputable).Pairwise
        (fun a b => a.loaded ≤ b.loaded) := hmono.filter _
    have hp2 : ((es.filter fun e => e.lengthComputable).map
        (fun e => progressPercent e.loaded t)).Pairwise (· ≤ ·) := by
      rw [List.pairwise_map]
      exact hp.imp (fun hab => progressPercent_mono hab)
    exact hp2.chain'

theorem download_progress_reporting_witness :
    (0 : Nat) < 200
    ∧ (runProgress defaultStatus
        [{ lengthComputable := true, loaded := 50, total := 200 },
         { lengthComputable := true, loaded := 100, total := 200 }]).2.1.map
        DownloadStatus.progress = [25, 50] := by
  refine ⟨by decide, ?_⟩
  have h := download_progress_reporting defaultStatus
    [{ lengthComputable := true, loaded := 50, total := 200 },
     { lengthComputable := true, loaded := 100, total := 200 }] 200
    (by decide) (by decide) (by decide) (by decide)
  rw [h.1]
  decide

/-- Claim C10: when the fetched remote metadata lacks `target_commitish`,
`checkVersion` returns `null` (line 99) — neither a `ReleaseCheckData` nor a
thrown failure — leaving the state unchanged, and the `auto-update` handler's
subsequent field access `version.new` on that `null` then throws a TypeError,
so the handler faults instead of returning `false`. -/
theorem checkVersion_null_faults_autoUpdate (cenv : CheckEnv) (oenv : OrchEnv)
    (s : UpdateState) (hmiss : cenv.fetch.lacksCommitish = true) :
    (checkVersion true cenv s).outcome = CheckOutcome.value none
    ∧ (checkVersion true cenv s).state = s
    ∧ (autoUpdate cenv oenv s).outcome = AutoOutcome.fault := by
  have hcv := checkVersion_lacksCommitish_eq true cenv s
    (rateLimitHit_force cenv.now s.lastCheckData) hmiss
  refine ⟨by rw [hcv], by rw [hcv], ?_⟩
  unfold autoUpdate
  dsimp only
  rw [hcv]

theorem checkVersion_null_faults_autoUpdate_witness :
    emptyCommitishEnv.fetch.lacksCommitish = true
    ∧ (autoUpdate emptyCommitishEnv sampleOrchEnv initialState).outcome
      = AutoOutcome.fault :=
  ⟨by decide,
    (checkVersion_null_faults_autoUpdate emptyCommitishEnv sampleOrchEnv initialState
      (by decide)).2.2⟩
